import Mathlib

/-!
Verification development for the crude-oil scenario forecasting engine
(`scenario_engine.py`, `utils.py`, `app.py`, `test.py`).

Shallow embedding conventions:
* Python floats are modelled as `ℚ`.  The one place where IEEE non-finiteness
  matters (division by a zero baseline in `format_price_change`) is modelled
  with `Option ℚ`: `none` stands for the non-finite value (`inf`/`nan`) that
  numpy float division by zero produces, which all later float operations
  (`round`, `*`) preserve.
* Python dicts with string keys are association lists `List (String × ℚ)`
  (keys are unique in all dicts the source builds, so `List.lookup` agrees
  with dict lookup).
* The fitted SARIMAX model (`self.model.get_forecast(...).predicted_mean`)
  is an external oracle, modelled as an uninterpreted function
  `List (List ℚ) → ℤ → List ℚ` carried in the engine state.
* `pandas.DataFrame([shocked] * forecast_weeks)` is `List.replicate
  weeks.toNat row`: Python list multiplication by a non-positive integer
  yields the empty list, exactly as `Int.toNat` sends non-positives to `0`.
* `.iloc[0]` / `.iloc[-1]` raise `IndexError` on an empty series; this is the
  `indexError` branch of the `Except` result.
-/

/-- The five exogenous driver columns the model expects
(`ScenarioEngine.exog_cols` in `scenario_engine.py`). -/
def exog_cols : List String :=
  ["dollar_return", "indpro_return", "inventory_pct", "fed_funds_diff", "vix_diff"]

/-- A shock mapping: Python `dict` from driver name to float shock value. -/
abbrev Shocks := List (String × ℚ)

/-- `shocks.get(col, 0.0)` — dict lookup with default `0.0`. -/
def getShock (s : Shocks) (k : String) : ℚ :=
  (s.lookup k).getD 0

/-- One scenario record of the `SCENARIOS` catalog in `scenario_engine.py`. -/
structure Scenario where
  name        : String
  description : String
  shocks      : Shocks
deriving DecidableEq, Repr

/-- The scenario catalog: Python module-level dict `SCENARIOS`. -/
abbrev Catalog := List (String × Scenario)

/-- The `SCENARIOS` dict of `scenario_engine.py`, with its five scenarios and
their shock values. -/
def SCENARIOS : Catalog :=
  [ ("opec_cut",
     { name := "OPEC Production Cut (10%)"
       description := "OPEC announces a coordinated 10% production cut. Supply tightens, inventories draw down, risk sentiment improves."
       shocks := [("inventory_pct", -0.05), ("vix_diff", -2.0),
                  ("dollar_return", -0.002), ("indpro_return", 0.0),
                  ("fed_funds_diff", 0.0)] }),
    ("global_recession",
     { name := "Global Recession"
       description := "A global recession takes hold. Industrial activity contracts sharply, demand for oil collapses, financial markets enter panic mode."
       shocks := [("indpro_return", -0.02), ("vix_diff", 8.0),
                  ("dollar_return", 0.005), ("inventory_pct", 0.03),
                  ("fed_funds_diff", 0.0)] }),
    ("rate_hike",
     { name := "Aggressive Fed Rate Hike (+75bps)"
       description := "The Federal Reserve raises rates aggressively by 75 basis points. Economic growth slows, dollar strengthens, oil demand weakens."
       shocks := [("dollar_return", 0.008), ("vix_diff", 3.0),
                  ("indpro_return", -0.005), ("fed_funds_diff", 0.75),
                  ("inventory_pct", 0.0)] }),
    ("geopolitical_tension",
     { name := "Major Geopolitical Tension (Supply Disruption)"
       description := "Significant geopolitical conflict disrupts oil supply routes. Markets panic, safe havens rally, supply uncertainty drives prices up."
       shocks := [("inventory_pct", -0.08), ("vix_diff", 12.0),
                  ("dollar_return", 0.003), ("indpro_return", 0.0),
                  ("fed_funds_diff", 0.0)] }),
    ("demand_boom",
     { name := "Global Demand Boom (China Reopening)"
       description := "A major emerging market (e.g. China) reopens strongly after a period of restriction. Industrial demand surges globally."
       shocks := [("indpro_return", 0.015), ("inventory_pct", -0.04),
                  ("vix_diff", -3.0), ("dollar_return", -0.003),
                  ("fed_funds_diff", 0.0)] }) ]

/-- The latest observed values used by the engine: the fields of
`self.latest` that `_build_exog_matrix`, `run_baseline` and `run_scenario`
read (`get_latest_values` in `utils.py`). -/
structure Latest where
  dollar_return  : ℚ
  indpro_return  : ℚ
  inventory_pct  : ℚ
  fed_funds_diff : ℚ
  vix_diff       : ℚ
  brent_price    : ℚ
deriving DecidableEq, Repr

/-- The `base` dict built at the top of `_build_exog_matrix`: the latest
observed value of each driver column. -/
def baseVal (latest : Latest) (c : String) : ℚ :=
  if c = "dollar_return" then latest.dollar_return
  else if c = "indpro_return" then latest.indpro_return
  else if c = "inventory_pct" then latest.inventory_pct
  else if c = "fed_funds_diff" then latest.fed_funds_diff
  else latest.vix_diff

/-- The `shocked` dict of `_build_exog_matrix`, as the row vector ordered by
`exog_cols`: `shocked[col] = base[col] + shocks.get(col, 0.0)`. -/
def shocked_row (latest : Latest) (shocks : Shocks) : List ℚ :=
  exog_cols.map (fun c => baseVal latest c + getShock shocks c)

/-- `ScenarioEngine._build_exog_matrix`: `forecast_weeks` identical copies of
the shocked row (`pd.DataFrame([shocked] * forecast_weeks)`). -/
def build_exog_matrix (latest : Latest) (shocks : Shocks) (forecast_weeks : ℤ) :
    List (List ℚ) :=
  List.replicate forecast_weeks.toNat (shocked_row latest shocks)

/-- Python `round(x, 2)` on a finite value: round half to even at two
decimal places. -/
def roundHalfEven (q : ℚ) : ℤ :=
  let f : ℤ := ⌊q⌋
  let frac : ℚ := q - (f : ℚ)
  if frac < 1 / 2 then f
  else if 1 / 2 < frac then f + 1
  else if f % 2 = 0 then f else f + 1

/-- Round a finite value to 2 decimal places. -/
def round2 (q : ℚ) : ℚ :=
  (roundHalfEven (q * 100) : ℚ) / 100

/-- Float division as the source performs it on numpy values: a zero
denominator yields a non-finite value (`inf`/`nan`), modelled `none`; nothing
in the source raises on it. -/
def fdiv (a b : ℚ) : Option ℚ :=
  if b = 0 then none else some (a / b)

/-- The dict returned by `format_price_change` in `utils.py` (the
display-only `formatted` string is not modelled; `arrow` is the emoji
string it contains). `pct_change = none` models the non-finite float that
reaches the dict when `baseline == 0`. -/
structure PriceChange where
  baseline   : ℚ
  shocked    : ℚ
  difference : ℚ
  pct_change : Option ℚ
  arrow      : String
deriving DecidableEq, Repr

/-- `format_price_change(baseline, shocked)` from `utils.py`:
`diff = shocked - baseline`, `pct = (diff / baseline) * 100`, all numeric
fields rounded via `round(_, 2)`, arrow chosen by `diff > 0` on the
unrounded difference. -/
def format_price_change (baseline shocked : ℚ) : PriceChange :=
  let diff := shocked - baseline
  let pct := (fdiv diff baseline).map (fun p => p * 100)
  { baseline   := round2 baseline
    shocked    := round2 shocked
    difference := round2 diff
    pct_change := pct.map round2
    arrow      := if 0 < diff then "📈" else "📉" }

/-- Engine state: the catalog (module global `SCENARIOS`), the latest
observed values (`self.latest`), and the fitted model as a forecast oracle
(`self.model.get_forecast(steps, exog).predicted_mean`).  `run_scenario` and
`run_baseline` only read this state — the source methods assign to no
attribute and no global — so they take it as a plain argument and return no
updated state. -/
structure Engine where
  catalog : Catalog
  latest  : Latest
  oracle  : List (List ℚ) → ℤ → List ℚ

/-- Errors a run can surface.  `unknownScenario` is the `ValueError` raised
by `run_scenario` for a key missing from the catalog, carrying the
`Available: [...]` key list from its message.  `indexError` is pandas
`.iloc` on an empty series.  `invalidHorizon` is the spec's §7 taxonomy
entry for horizon ≤ 0; no source code path produces it (shown below). -/
inductive EngineError where
  | unknownScenario (available : List String)
  | invalidHorizon
  | indexError
deriving DecidableEq, Repr

/-- The `zero_shocks` dict of `run_baseline`: `{col: 0.0 for col in exog_cols}`. -/
def zero_shocks : Shocks :=
  exog_cols.map (fun c => (c, 0))

/-- The part of `run_baseline`'s result dict that later code reads. -/
structure BaselineResult where
  forecast_mean : List ℚ
  weeks         : ℤ
  current_price : ℚ

/-- `ScenarioEngine.run_baseline`: zero-shock matrix fed to the oracle. -/
def run_baseline (st : Engine) (forecast_weeks : ℤ) : BaselineResult :=
  { forecast_mean := st.oracle (build_exog_matrix st.latest zero_shocks forecast_weeks)
                       forecast_weeks
    weeks         := forecast_weeks
    current_price := st.latest.brent_price }

/-- The result dict of `ScenarioEngine.run_scenario` (confidence intervals,
which are separate oracle outputs never compared by any claim, are not
modelled). -/
structure RunResult where
  scenario_key      : String
  scenario_name     : String
  scenario_desc     : String
  shocks            : Shocks
  current_price     : ℚ
  baseline_forecast : List ℚ
  shocked_forecast  : List ℚ
  impact_week1      : PriceChange
  impact_week12     : PriceChange
  weeks             : ℤ
deriving DecidableEq, Repr

/-- `ScenarioEngine.run_scenario(scenario_key, forecast_weeks)`:
1. raise `ValueError` (with the available-key list) if the key is absent;
2. baseline forecast via `run_baseline`;
3. shocked forecast from the scenario's stored shocks;
4. impacts from `.iloc[-1]` and `.iloc[0]` of both series
   (`IndexError` when a series is empty). -/
def run_scenario (st : Engine) (scenario_key : String) (forecast_weeks : ℤ) :
    Except EngineError RunResult :=
  match st.catalog.lookup scenario_key with
  | none => .error (.unknownScenario (st.catalog.map Prod.fst))
  | some scenario =>
    let baseline_result := run_baseline st forecast_weeks
    let baseline_forecast := baseline_result.forecast_mean
    let shocked_exog := build_exog_matrix st.latest scenario.shocks forecast_weeks
    let shocked_forecast := st.oracle shocked_exog forecast_weeks
    match baseline_forecast.getLast?, shocked_forecast.getLast?,
          baseline_forecast.head?, shocked_forecast.head? with
    | some baseline_end, some shocked_end, some baseline_w1, some shocked_w1 =>
      .ok { scenario_key      := scenario_key
            scenario_name     := scenario.name
            scenario_desc     := scenario.description
            shocks            := scenario.shocks
            current_price     := st.latest.brent_price
            baseline_forecast := baseline_forecast
            shocked_forecast  := shocked_forecast
            impact_week1      := format_price_change baseline_w1 shocked_w1
            impact_week12     := format_price_change baseline_end shocked_end
            weeks             := forecast_weeks }
    | _, _, _, _ => .error .indexError

/-- Magnitude scaling as both callers write it: the dict comprehension
`{k: v * modifier for k, v in shocks.items()}` of `app.py`
(`run_simulation`, step 2); `test.py` computes the same mapping by
deep-copying and multiplying the copy in place, leaving the input intact. -/
def scale (shocks : Shocks) (modifier : ℚ) : Shocks :=
  shocks.map (fun kv => (kv.1, kv.2 * modifier))

/-- `SCENARIOS[key]["shocks"] = s` — the in-place catalog overwrite both
`app.py` (line 145/151) and `test.py` (line 117/125) perform. -/
def set_shocks (cat : Catalog) (key : String) (s : Shocks) : Catalog :=
  cat.map (fun kv => if kv.1 = key then (kv.1, { kv.2 with shocks := s }) else kv)

/-- The catalog as it stands while `engine.run_scenario` executes inside
`app.py`'s `run_simulation` (after line 145): the stored shocks of
`scenario_key` have been overwritten with the scaled mapping.  An unknown
key raises `KeyError` at the comprehension before any write, leaving the
catalog unchanged. -/
def run_simulation_catalog_mid (cat : Catalog) (scenario_key : String)
    (modifier : ℚ) : Catalog :=
  match cat.lookup scenario_key with
  | none => cat
  | some scenario => set_shocks cat scenario_key (scale scenario.shocks modifier)

/-- The catalog after `run_simulation` finishes or raises: on success the
original shocks are restored (line 151); when `engine.run_scenario` raises,
the exception propagates to the handler and the restore line never runs, so
the scaled shocks stay in the shared catalog. -/
def run_simulation_catalog_after (st : Engine) (scenario_key : String)
    (modifier : ℚ) (weeks : ℤ) : Catalog :=
  match st.catalog.lookup scenario_key with
  | none => st.catalog
  | some scenario =>
    let mid := run_simulation_catalog_mid st.catalog scenario_key modifier
    match run_scenario { st with catalog := mid } scenario_key weeks with
    | .ok _ => set_shocks mid scenario_key scenario.shocks
    | .error _ => mid

/-! Concrete instances used by witnesses and concrete evaluations.  The
latest values and the oracle are start-up data (CSV files and a pickled
fitted model), so witnesses pick concrete stand-ins; every claim quantifies
over them. -/

/-- A concrete baseline snapshot. -/
def latestC : Latest :=
  { dollar_return := 1, indpro_return := 2, inventory_pct := 3,
    fed_funds_diff := 4, vix_diff := 5, brent_price := 75 }

/-- A concrete deterministic oracle honouring the §4.5 contract: it returns
a sequence whose length equals the requested horizon. -/
def oracleC : List (List ℚ) → ℤ → List ℚ :=
  fun _ steps => (List.range steps.toNat).map (fun i => (80 : ℚ) + i)

/-- A concrete engine over the real `SCENARIOS` catalog. -/
def engineC : Engine :=
  { catalog := SCENARIOS, latest := latestC, oracle := oracleC }

/-- A second engine sharing `engineC`'s catalog but with different start-up
data, used to observe that a failed run never consults them. -/
def engineC2 : Engine :=
  { catalog := SCENARIOS
    latest := { dollar_return := 9, indpro_return := 8, inventory_pct := 7,
                fed_funds_diff := 6, vix_diff := 5, brent_price := 60 }
    oracle := fun _ _ => [1, 2] }

/-- An all-zero-shock scenario (the shock mappings are caller data; the
claims quantify over them). -/
def calmScenario : Scenario :=
  { name := "No Shock", description := "All drivers stay at baseline.",
    shocks := exog_cols.map (fun c => (c, 0)) }

/-- `engineC` with the zero-shock scenario added to the catalog. -/
def calmEngine : Engine :=
  { catalog := ("calm", calmScenario) :: SCENARIOS, latest := latestC,
    oracle := oracleC }

/-! Helper lemmas. -/

/-- Looking a key up in a scaled mapping scales the looked-up value. -/
theorem lookup_scale (s : Shocks) (m : ℚ) (k : String) :
    (scale s m).lookup k = (s.lookup k).map (fun v => v * m) := by
  induction s with
  | nil => rfl
  | cons a t ih =>
    cases hb : (k == a.1)
    · simpa [scale, List.lookup, hb] using ih
    · simp [scale, List.lookup, hb]

/-- A mapping sending every listed key to `0` reads back as `0` everywhere
(unlisted keys default to `0` through `getShock`). -/
theorem getShock_const_zero (l : List String) (k : String) :
    getShock (l.map (fun c => (c, (0 : ℚ)))) k = 0 := by
  induction l with
  | nil => rfl
  | cons a t ih =>
    cases hb : (k == a)
    · simpa [getShock, List.lookup, hb] using ih
    · simp [getShock, List.lookup, hb]

/-- The `zero_shocks` dict of `run_baseline` reads back as `0` on every key. -/
theorem getShock_zero_shocks (k : String) : getShock zero_shocks k = 0 :=
  getShock_const_zero exog_cols k

/-- Rows built from shock mappings that agree on the five driver columns are
equal. -/
theorem shocked_row_congr (latest : Latest) (s₁ s₂ : Shocks)
    (h : ∀ c ∈ exog_cols, getShock s₁ c = getShock s₂ c) :
    shocked_row latest s₁ = shocked_row latest s₂ := by
  unfold shocked_row
  exact List.map_congr_left fun c hc => by rw [h c hc]

/-- C9: magnitude scaling is a pure function: it returns a new mapping with
every value multiplied by the modifier and leaves the input untouched (in
this embedding `scale` takes and returns immutable values and `s` is never
rebound; `test.py` reaches the same mapping by mutating a deep copy only).
Modifier `1.0` is the identity, modifier `0.0` zeroes every shock. -/
theorem scale_pure_spec (s : Shocks) (m : ℚ) :
    scale s 1 = s ∧
    scale s 0 = s.map (fun kv => (kv.1, 0)) ∧
    ∀ k : String, (scale s m).lookup k = (s.lookup k).map (fun v => v * m) := by
  exact ⟨by simp [scale], by simp [scale], fun k => lookup_scale s m k⟩

/-- C2: for every shock mapping and `weeks ≥ 1` the exogenous matrix has
exactly `weeks` rows, every row is the vector
`baseline[driver] + shocks.get(driver, 0.0)` over the five fixed drivers,
and shock mappings agreeing on those five columns (in particular mappings
differing only in unknown driver names) build identical matrices. -/
theorem build_exog_matrix_spec (latest : Latest) (s₁ s₂ : Shocks) (weeks : ℤ)
    (hw : 1 ≤ weeks)
    (hagree : ∀ c ∈ exog_cols, getShock s₁ c = getShock s₂ c) :
    ((build_exog_matrix latest s₁ weeks).length : ℤ) = weeks ∧
    (∀ row ∈ build_exog_matrix latest s₁ weeks,
        row = exog_cols.map (fun c => baseVal latest c + getShock s₁ c)) ∧
    build_exog_matrix latest s₁ weeks = build_exog_matrix latest s₂ weeks := by
  refine ⟨?_, ?_, ?_⟩
  · simp only [build_exog_matrix, List.length_replicate]
    omega
  · intro row hrow
    simpa [shocked_row] using List.eq_of_mem_replicate hrow
  · unfold build_exog_matrix
    rw [shocked_row_congr latest s₁ s₂ hagree]

/-- C2 witness: three weeks, a one-driver shock mapping, and the same
mapping extended with an unknown driver name that is silently ignored. -/
theorem build_exog_matrix_spec_witness :
    ((build_exog_matrix latestC [("vix_diff", 7)] 3).length : ℤ) = 3 ∧
    (∀ row ∈ build_exog_matrix latestC [("vix_diff", 7)] 3,
        row = exog_cols.map (fun c => baseVal latestC c + getShock [("vix_diff", 7)] c)) ∧
    build_exog_matrix latestC [("vix_diff", 7)] 3 =
      build_exog_matrix latestC [("vix_diff", 7), ("oil_rig_count", 9)] 3 :=
  build_exog_matrix_spec latestC [("vix_diff", 7)]
    [("vix_diff", 7), ("oil_rig_count", 9)] 3 (by decide) (by decide)

/-- C6: with a nonzero baseline, the summary's `difference` and `pct_change`
are computed from the unrounded inputs and then rounded to two decimals, as
are the `baseline` and `shocked` fields, and the direction arrow is chosen
by the sign of the unrounded difference. -/
theorem format_price_change_spec (b s : ℚ) (hb : b ≠ 0) :
    (format_price_change b s).difference = round2 (s - b) ∧
    (format_price_change b s).pct_change = some (round2 ((s - b) / b * 100)) ∧
    (format_price_change b s).baseline = round2 b ∧
    (format_price_change b s).shocked = round2 s ∧
    ((format_price_change b s).arrow = "📈" ↔ 0 < s - b) := by
  unfold format_price_change fdiv
  refine ⟨rfl, by simp [hb], rfl, rfl, ?_⟩
  split
  · next h => simp [h]
  · next h => simp [h]

/-- C6 witness at baseline 2, shocked 3. -/
theorem format_price_change_spec_witness :
    (format_price_change 2 3).difference = round2 (3 - 2) ∧
    (format_price_change 2 3).pct_change = some (round2 ((3 - 2) / 2 * 100)) ∧
    (format_price_change 2 3).baseline = round2 2 ∧
    (format_price_change 2 3).shocked = round2 3 ∧
    ((format_price_change 2 3).arrow = "📈" ↔ (0 : ℚ) < 3 - 2) :=
  format_price_change_spec 2 3 (by norm_num)

/-- C3 (code bug in `utils.format_price_change`): at `baseline = 0` the
function does not fail with a `DivisionUndefined` error and returns no
documented sentinel — it has no zero check at all, so the non-finite float
from `(diff / baseline) * 100` (modelled `none`) is carried into the
returned summary, whose other fields are still produced. -/
theorem format_price_change_zero_baseline :
    (format_price_change 0 1).pct_change = none ∧
    (format_price_change 0 1).arrow = "📈" ∧
    (format_price_change 0 1).difference = round2 1 := by
  unfold format_price_change fdiv
  norm_num

/-- C4: an unknown scenario key makes `run_scenario` fail, for any horizon,
with the unknown-scenario error carrying exactly the five valid catalog
keys (the `ValueError` message lists `SCENARIOS.keys()`). -/
theorem run_scenario_unknown_scenario (latest : Latest)
    (oracle : List (List ℚ) → ℤ → List ℚ) (key : String) (weeks : ℤ)
    (hk : SCENARIOS.lookup key = none) :
    run_scenario ⟨SCENARIOS, latest, oracle⟩ key weeks =
      .error (.unknownScenario
        ["opec_cut", "global_recession", "rate_hike", "geopolitical_tension",
         "demand_boom"]) := by
  have h2 : (⟨SCENARIOS, latest, oracle⟩ : Engine).catalog.lookup key = none := hk
  unfold run_scenario
  rw [h2]
  rfl

/-- C4 witness: the key `"made_up_key"` at horizon 12. -/
theorem run_scenario_unknown_scenario_witness :
    run_scenario ⟨SCENARIOS, latestC, oracleC⟩ "made_up_key" 12 =
      .error (.unknownScenario
        ["opec_cut", "global_recession", "rate_hike", "geopolitical_tension",
         "demand_boom"]) :=
  run_scenario_unknown_scenario latestC oracleC "made_up_key" 12 (by decide)

/-- C10: with an unknown key, `run_scenario` fails without consulting the
baseline snapshot or the forecast oracle — the result is the same for any
engine sharing the catalog and for any horizon — and the error carries the
catalog's key list.  (The source method writes no attribute and no global,
which the embedding reflects by returning no state.) -/
theorem run_scenario_unknown_key_atomic (st st2 : Engine) (key : String)
    (w w2 : ℤ) (hcat : st.catalog = st2.catalog)
    (hk : st.catalog.lookup key = none) :
    run_scenario st key w = .error (.unknownScenario (st.catalog.map Prod.fst)) ∧
    run_scenario st key w = run_scenario st2 key w2 := by
  have hk2 : st2.catalog.lookup key = none := by rw [← hcat]; exact hk
  constructor
  · unfold run_scenario
    rw [hk]
  · unfold run_scenario
    rw [hk, hk2, hcat]

/-- C10 witness: two engines over the real catalog with different snapshots
and oracles, the key `"made_up_key"`, horizons 12 and -5. -/
theorem run_scenario_unknown_key_atomic_witness :
    run_scenario engineC "made_up_key" 12 =
      .error (.unknownScenario (engineC.catalog.map Prod.fst)) ∧
    run_scenario engineC "made_up_key" 12 = run_scenario engineC2 "made_up_key" (-5) :=
  run_scenario_unknown_key_atomic engineC engineC2 "made_up_key" 12 (-5) rfl (by decide)

/-- `.iloc[0]` as positional access with default (on a nonempty series they
agree). -/
theorem head_eq_getD (l : List ℚ) (h : l ≠ []) : l.head h = l.getD 0 0 := by
  cases l with
  | nil => exact absurd rfl h
  | cons a t => rfl

/-- `.iloc[-1]` is positional access at the last index. -/
theorem getLast_eq_getD (l : List ℚ) (h : l ≠ []) :
    l.getLast h = l.getD (l.length - 1) 0 := by
  have hlt : l.length - 1 < l.length := by
    cases l with
    | nil => exact absurd rfl h
    | cons a t => simp
  rw [List.getD_eq_getElem?_getD, List.getElem?_eq_getElem hlt,
    List.getLast_eq_getElem]
  rfl

/-- On nonempty forecasts, `run_scenario` reaches the success branch and
returns the record the source builds. -/
theorem run_scenario_eq_ok (st : Engine) (key : String) (weeks : ℤ)
    (scenario : Scenario) (bl sh : List ℚ)
    (hk : st.catalog.lookup key = some scenario)
    (hbl_def : bl = st.oracle (build_exog_matrix st.latest zero_shocks weeks) weeks)
    (hsh_def : sh = st.oracle (build_exog_matrix st.latest scenario.shocks weeks) weeks)
    (hbl_ne : bl ≠ []) (hsh_ne : sh ≠ []) :
    run_scenario st key weeks = .ok
      { scenario_key := key, scenario_name := scenario.name,
        scenario_desc := scenario.description, shocks := scenario.shocks,
        current_price := st.latest.brent_price,
        baseline_forecast := bl, shocked_forecast := sh,
        impact_week1 := format_price_change (bl.head hbl_ne) (sh.head hsh_ne),
        impact_week12 := format_price_change (bl.getLast hbl_ne) (sh.getLast hsh_ne),
        weeks := weeks } := by
  subst hbl_def hsh_def
  unfold run_scenario run_baseline
  rw [hk]
  dsimp only
  rw [List.getLast?_eq_getLast _ hbl_ne, List.getLast?_eq_getLast _ hsh_ne,
    List.head?_eq_head hbl_ne, List.head?_eq_head hsh_ne]

/-- C7: a scenario whose shocks are all exactly zero on the five drivers
produces a shocked forecast identical to the baseline forecast — both oracle
calls receive the very same matrix, and the oracle is a function of its
inputs (determinism). -/
theorem run_scenario_zero_shock (st : Engine) (key : String) (weeks : ℤ)
    (scenario : Scenario)
    (hk : st.catalog.lookup key = some scenario)
    (hz : ∀ c ∈ exog_cols, getShock scenario.shocks c = 0) :
    (run_scenario st key weeks).toOption.map RunResult.shocked_forecast =
      (run_scenario st key weeks).toOption.map RunResult.baseline_forecast := by
  have hrow : build_exog_matrix st.latest scenario.shocks weeks
      = build_exog_matrix st.latest zero_shocks weeks := by
    unfold build_exog_matrix
    rw [shocked_row_congr st.latest scenario.shocks zero_shocks
      (fun c hc => by rw [hz c hc, getShock_zero_shocks c])]
  unfold run_scenario run_baseline
  rw [hk]
  dsimp only
  rw [hrow]
  split <;> rfl

/-- C7 witness: the all-zero-shock scenario of `calmEngine` at horizon 3. -/
theorem run_scenario_zero_shock_witness :
    (run_scenario calmEngine "calm" 3).toOption.map RunResult.shocked_forecast =
      (run_scenario calmEngine "calm" 3).toOption.map RunResult.baseline_forecast :=
  run_scenario_zero_shock calmEngine "calm" 3 calmScenario (by decide) (by decide)

/-- C8: for any valid key and horizon `weeks ≥ 1`, given the §4.5 oracle
contract (output length equals the requested horizon), the run succeeds,
both forecast sequences have length exactly `weeks`, `impact_week1` is
computed from index 0 of both sequences and `impact_week12` from index
`weeks - 1` of both. -/
theorem run_scenario_lengths (st : Engine) (key : String) (weeks : ℤ)
    (scenario : Scenario)
    (hk : st.catalog.lookup key = some scenario)
    (hw : 1 ≤ weeks)
    (hor : ∀ m, (st.oracle m weeks).length = weeks.toNat) :
    ∃ r, run_scenario st key weeks = .ok r ∧
      r.baseline_forecast.length = weeks.toNat ∧
      r.shocked_forecast.length = weeks.toNat ∧
      r.impact_week1 = format_price_change (r.baseline_forecast.getD 0 0)
        (r.shocked_forecast.getD 0 0) ∧
      r.impact_week12 =
        format_price_change (r.baseline_forecast.getD (weeks.toNat - 1) 0)
          (r.shocked_forecast.getD (weeks.toNat - 1) 0) := by
  have hpos : 0 < weeks.toNat := by omega
  have hbl : (st.oracle (build_exog_matrix st.latest zero_shocks weeks) weeks).length
      = weeks.toNat := hor _
  have hsh : (st.oracle (build_exog_matrix st.latest scenario.shocks weeks) weeks).length
      = weeks.toNat := hor _
  have hbl_ne : st.oracle (build_exog_matrix st.latest zero_shocks weeks) weeks ≠ [] :=
    List.ne_nil_of_length_pos (hbl ▸ hpos)
  have hsh_ne : st.oracle (build_exog_matrix st.latest scenario.shocks weeks) weeks ≠ [] :=
    List.ne_nil_of_length_pos (hsh ▸ hpos)
  refine ⟨_, run_scenario_eq_ok st key weeks scenario _ _ hk rfl rfl hbl_ne hsh_ne,
    hbl, hsh, ?_, ?_⟩
  · dsimp only
    rw [head_eq_getD _ hbl_ne, head_eq_getD _ hsh_ne]
  · dsimp only
    rw [getLast_eq_getD _ hbl_ne, getLast_eq_getD _ hsh_ne, hbl, hsh]

/-- C8 witness: `opec_cut` at horizon 3 with a contract-honouring oracle. -/
theorem run_scenario_lengths_witness :
    ∃ r, run_scenario engineC "opec_cut" 3 = .ok r ∧
      r.baseline_forecast.length = (3 : ℤ).toNat ∧
      r.shocked_forecast.length = (3 : ℤ).toNat ∧
      r.impact_week1 = format_price_change (r.baseline_forecast.getD 0 0)
        (r.shocked_forecast.getD 0 0) ∧
      r.impact_week12 =
        format_price_change (r.baseline_forecast.getD ((3 : ℤ).toNat - 1) 0)
          (r.shocked_forecast.getD ((3 : ℤ).toNat - 1) 0) :=
  run_scenario_lengths engineC "opec_cut" 3
    ((SCENARIOS.lookup "opec_cut").get (by decide)) (by rfl) (by decide)
    (fun m => by
      simp only [engineC, oracleC, List.length_map, List.length_range]
      rfl)

/-- C5 (code bug in `ScenarioEngine.run_scenario`): the source performs no
horizon validation at all — there is no check producing an invalid-horizon
error.  At horizon 0 (and any negative horizon) the request is processed:
the scenario is looked up, an empty exogenous matrix is built
(`[shocked] * weeks` is empty for `weeks ≤ 0`), the oracle is invoked, and
the failure that finally surfaces is an `IndexError` from `.iloc[-1]` on
the empty forecast — not the `InvalidHorizon` rejection the spec requires. -/
theorem run_scenario_no_horizon_validation :
    run_scenario engineC "opec_cut" 0 = .error .indexError ∧
    run_scenario engineC "opec_cut" (-3) = .error .indexError ∧
    build_exog_matrix engineC.latest zero_shocks 0 = [] := by
  refine ⟨?_, ?_, ?_⟩ <;> rfl

/-- C1 (code bug in `app.py run_simulation`, same pattern in `test.py
run_interactive`): the run overwrites the shared catalog's stored shocks
with the scaled mapping before calling `engine.run_scenario` — while the
run executes, the catalog entry differs from the original (first conjunct).
When `run_scenario` raises (here: horizon 0), the restore on line 151 never
executes and the mutation persists after the run (second conjunct).  Only
on a successful run is the original catalog restored (third conjunct) —
i.e. the overwrite is real and temporary at best, where the claim demands
it never happen at all. -/
theorem run_simulation_overwrites_catalog :
    ((run_simulation_catalog_mid SCENARIOS "opec_cut" 2).lookup "opec_cut").map
        Scenario.shocks ≠ (SCENARIOS.lookup "opec_cut").map Scenario.shocks ∧
    run_simulation_catalog_after engineC "opec_cut" 2 0 =
      run_simulation_catalog_mid SCENARIOS "opec_cut" 2 ∧
    run_simulation_catalog_after engineC "opec_cut" 2 3 = SCENARIOS := by
  refine ⟨?_, rfl, rfl⟩
  norm_num [run_simulation_catalog_mid, SCENARIOS, set_shocks, scale,
    List.lookup]
